import Mathlib

/-!
Shallow embedding of the orchestration core of the multi-agent data-analysis
repository: the shared state model (`src/state.py`), the node executors
(`src/node.py`: `agent_node`, `note_agent_node`, `_create_error_state`,
`human_choice_node`, `human_review_node`, `create_message`) and the router
family (`src/router.py`: `hypothesis_router`, `QualityReview_router`,
`process_router`).

Python strings are Lean `String`s manipulated through their character lists,
Python dict/JSON values are the inductive `PyVal`, `json.loads` is the
executable `pyJsonLoads`, and a Python function that can raise an uncaught
exception is embedded with an `Option`/`PyResult` codomain where `none` /
`.raise` marks the escaping exception.
-/

namespace MultiAgent

/-- Characters written via their code points so that bracket-like and
quote-like characters never appear as literals. -/
def chLB : Char := Char.ofNat 123

/-- Closing curly brace character. -/
def chRB : Char := Char.ofNat 125

/-- Opening square bracket character. -/
def chLS : Char := Char.ofNat 91

/-- Closing square bracket character. -/
def chRS : Char := Char.ofNat 93

/-- Double-quote character. -/
def chDQ : Char := Char.ofNat 34

/-- Single-quote character. -/
def chSQ : Char := Char.ofNat 39

/-- Backslash character. -/
def chBS : Char := Char.ofNat 92

/-- Whitespace as recognized by Python `str.strip` (the subset that can occur
in the embedded strings). -/
def isPyWs (c : Char) : Bool :=
  c = ' ' || c = '\t' || c = '\n' || c = '\r' || c = Char.ofNat 11 || c = Char.ofNat 12

/-- JSON structural whitespace (`json.loads` skips spaces, tabs, newlines,
carriage returns between tokens). -/
def isJsonWs (c : Char) : Bool :=
  c = ' ' || c = '\t' || c = '\n' || c = '\r'

/-- Drop leading JSON whitespace from a character list. -/
def skipWs : List Char → List Char
  | [] => []
  | c :: cs => if isJsonWs c then skipWs cs else c :: cs

/-- Embedding of Python `str.strip()`: drop `isPyWs` characters from both
ends. -/
def trimStr (s : String) : String :=
  String.mk (((s.data.dropWhile isPyWs).reverse.dropWhile isPyWs).reverse)

/-- ASCII lower-casing of one character, embedding the effect of Python
`str.lower()` on the ASCII strings that occur here. -/
def lowerChar (c : Char) : Char :=
  if 'A' ≤ c ∧ c ≤ 'Z' then Char.ofNat (c.toNat + 32) else c

/-- Embedding of Python `str.lower()`. -/
def lowerStr (s : String) : String :=
  String.mk (s.data.map lowerChar)

/-- Whether the first list is a prefix of the second. -/
def listStarts : List Char → List Char → Bool
  | [], _ => true
  | _ :: _, [] => false
  | a :: as, b :: bs => a = b && listStarts as bs

/-- Whether the first list occurs as a contiguous segment of the second. -/
def listInfix (sub : List Char) : List Char → Bool
  | [] => sub.isEmpty
  | c :: cs => listStarts sub (c :: cs) || listInfix sub cs

/-- Embedding of Python `sub in hay` substring containment. -/
def containsSub (hay sub : String) : Bool :=
  listInfix sub.data hay.data

/-- Embedding of `content.replace("'", '"')` from `process_router`
(`src/router.py` line 104): every single quote becomes a double quote. -/
def replaceSQ (s : String) : String :=
  String.mk (s.data.map (fun c => if c = chSQ then chDQ else c))

/-- Embedding of `re.sub(r'[\x00-\x1F\x7F-\x9F]', '', output)` from
`note_agent_node` (`src/node.py` line 116): strip control characters. -/
def stripCtl (s : String) : String :=
  String.mk (s.data.filter (fun c => !(c.toNat ≤ 31 || (127 ≤ c.toNat && c.toNat ≤ 159))))

/-- Python values produced by `json.loads`: the JSON fragment of Python's
object model (None, bool, int, str, list, dict). -/
inductive PyVal : Type where
  | vnull : PyVal
  | vbool (b : Bool) : PyVal
  | vnum (n : Int) : PyVal
  | vstr (s : String) : PyVal
  | varr (xs : List PyVal) : PyVal
  | vobj (kvs : List (String × PyVal)) : PyVal

/-- Python truthiness of a `PyVal` (`bool(v)`). -/
def pyBool : PyVal → Bool
  | .vnull => false
  | .vbool b => b
  | .vnum n => n ≠ 0
  | .vstr s => s ≠ ""
  | .varr xs => !xs.isEmpty
  | .vobj kvs => !kvs.isEmpty

/-- Python `dict.get`: last binding wins, as for duplicate JSON keys. -/
def pyGet (kvs : List (String × PyVal)) (k : String) : Option PyVal :=
  (kvs.reverse.find? (fun p => p.1 == k)).map (fun p => p.2)

/-- Lists and dicts are unhashable in Python: membership tests of such a
value in a `set` raise `TypeError`. -/
def pyUnhashable : PyVal → Bool
  | .varr _ => true
  | .vobj _ => true
  | _ => false

mutual

/-- Python `repr` of a JSON-shaped value, as used by `str()` on containers
(single-quoted strings, `True`/`False`/`None` literals). -/
def pyRepr : PyVal → String
  | .vnull => "None"
  | .vbool b => if b then "True" else "False"
  | .vnum n => toString n
  | .vstr s => String.mk (chSQ :: s.data ++ [chSQ])
  | .varr xs => String.mk (chLS :: (pyReprElems xs).data ++ [chRS])
  | .vobj kvs => String.mk (chLB :: (pyReprPairs kvs).data ++ [chRB])

/-- Comma-separated `repr`s of list elements. -/
def pyReprElems : List PyVal → String
  | [] => ""
  | [x] => pyRepr x
  | x :: y :: xs => pyRepr x ++ ", " ++ pyReprElems (y :: xs)

/-- Comma-separated `repr`s of dict entries. -/
def pyReprPairs : List (String × PyVal) → String
  | [] => ""
  | [(k, v)] => String.mk (chSQ :: k.data ++ [chSQ]) ++ ": " ++ pyRepr v
  | (k, v) :: p :: kvs =>
      String.mk (chSQ :: k.data ++ [chSQ]) ++ ": " ++ pyRepr v ++ ", " ++ pyReprPairs (p :: kvs)

end

/-- Python `str()` of a JSON-shaped value: identity on strings, `repr`
otherwise. -/
def pyStr : PyVal → String
  | .vstr s => s
  | v => pyRepr v

/-- Decode one escape character of a JSON string body (the escapes that
occur in the embedded strings; `\uXXXX` is out of the modeled fragment). -/
def escChar (c : Char) : Option Char :=
  if c = chDQ then some chDQ
  else if c = chBS then some chBS
  else if c = '/' then some '/'
  else if c = 'n' then some '\n'
  else if c = 't' then some '\t'
  else if c = 'r' then some '\r'
  else if c = 'b' then some (Char.ofNat 8)
  else if c = 'f' then some (Char.ofNat 12)
  else none

/-- Parse the body of a JSON string after the opening quote; strict mode
rejects raw control characters, as `json.loads` does. -/
def parseStringBody : List Char → Option (List Char × List Char)
  | [] => none
  | c :: cs =>
    if c = chDQ then some ([], cs)
    else if c = chBS then
      match cs with
      | [] => none
      | e :: rest =>
        match escChar e with
        | none => none
        | some d =>
          match parseStringBody rest with
          | none => none
          | some (body, rem) => some (d :: body, rem)
    else if c.toNat < 32 then none
    else
      match parseStringBody cs with
      | none => none
      | some (body, rem) => some (c :: body, rem)

/-- Digits of a nonnegative integer literal to its value. -/
def digitsToNat (ds : List Char) : Nat :=
  ds.foldl (fun acc c => acc * 10 + (c.toNat - 48)) 0

/-- Parse a JSON integer literal (the modeled fragment has no floats: a
fraction or exponent makes the parse fail). -/
def parseNum (cs : List Char) : Option (PyVal × List Char) :=
  let (neg, cs') := if cs.head? = some '-' then (true, cs.drop 1) else (false, cs)
  let ds := cs'.takeWhile Char.isDigit
  let rest := cs'.dropWhile Char.isDigit
  if ds.isEmpty then none
  else if ds.length > 1 ∧ ds.head? = some '0' then none
  else if rest.head? = some '.' ∨ rest.head? = some 'e' ∨ rest.head? = some 'E' then none
  else
    let n : Int := Int.ofNat (digitsToNat ds)
    some (.vnum (if neg then -n else n), rest)

mutual

/-- Fuel-indexed recursive-descent JSON parser embedding `json.loads`;
returns the value and the unconsumed suffix. -/
def parseVal : Nat → List Char → Option (PyVal × List Char)
  | 0, _ => none
  | fuel + 1, cs =>
    match skipWs cs with
    | [] => none
    | c :: rest =>
      if c = 'n' then
        if rest.take 3 = ['u', 'l', 'l'] then some (.vnull, rest.drop 3) else none
      else if c = 't' then
        if rest.take 3 = ['r', 'u', 'e'] then some (.vbool true, rest.drop 3) else none
      else if c = 'f' then
        if rest.take 4 = ['a', 'l', 's', 'e'] then some (.vbool false, rest.drop 4) else none
      else if c = chDQ then
        match parseStringBody rest with
        | none => none
        | some (body, rem) => some (.vstr (String.mk body), rem)
      else if c = chLS then
        match skipWs rest with
        | [] => none
        | d :: rest' =>
          if d = chRS then some (.varr [], rest')
          else
            match parseElems fuel (d :: rest') with
            | none => none
            | some (xs, rem) => some (.varr xs, rem)
      else if c = chLB then
        match skipWs rest with
        | [] => none
        | d :: rest' =>
          if d = chRB then some (.vobj [], rest')
          else
            match parsePairs fuel (d :: rest') with
            | none => none
            | some (kvs, rem) => some (.vobj kvs, rem)
      else if c = '-' ∨ c.isDigit then parseNum (c :: rest)
      else none

/-- Parse one or more comma-separated array elements up to the closing
bracket. -/
def parseElems : Nat → List Char → Option (List PyVal × List Char)
  | 0, _ => none
  | fuel + 1, cs =>
    match parseVal fuel cs with
    | none => none
    | some (v, rem) =>
      match skipWs rem with
      | [] => none
      | d :: rest =>
        if d = chRS then some ([v], rest)
        else if d = ',' then
          match parseElems fuel rest with
          | none => none
          | some (xs, rem') => some (v :: xs, rem')
        else none

/-- Parse one or more comma-separated `"key": value` pairs up to the closing
brace. -/
def parsePairs : Nat → List Char → Option (List (String × PyVal) × List Char)
  | 0, _ => none
  | fuel + 1, cs =>
    match skipWs cs with
    | [] => none
    | c :: rest =>
      if c = chDQ then
        match parseStringBody rest with
        | none => none
        | some (key, rem) =>
          match skipWs rem with
          | [] => none
          | d :: rest' =>
            if d = ':' then
              match parseVal fuel rest' with
              | none => none
              | some (v, rem') =>
                match skipWs rem' with
                | [] => none
                | e :: rest'' =>
                  if e = chRB then some ([(String.mk key, v)], rest'')
                  else if e = ',' then
                    match parsePairs fuel rest'' with
                    | none => none
                    | some (kvs, rem'') => some ((String.mk key, v) :: kvs, rem'')
                  else none
            else none
      else none

end

/-- Embedding of Python `json.loads`: parse the whole string (trailing
whitespace allowed), `none` is `json.JSONDecodeError`. -/
def pyJsonLoads (s : String) : Option PyVal :=
  match parseVal (2 * s.data.length + 8) s.data with
  | none => none
  | some (v, rest) => if skipWs rest = [] then some v else none

/-- A langchain `AIMessage(content=..., name=...)`. -/
structure AIMsg : Type where
  content : String
  name : String
deriving DecidableEq, Repr

/-- A langchain `BaseMessage`: either a `HumanMessage` or an `AIMessage`. -/
inductive BMsg : Type where
  | human (content : String) : BMsg
  | ai (m : AIMsg) : BMsg
deriving DecidableEq, Repr

/-- The `.content` attribute of a message. -/
def BMsg.content : BMsg → String
  | .human c => c
  | .ai m => m.content

/-- A value held by one of the string-typed scratch slots of the Python
state dict: declared `str` in `src/state.py`, but `agent_node` also stores
whole `AIMessage` objects there, and the routers defend against further
shapes. `other` carries the object's `str()` text and its truthiness. -/
inductive SVal : Type where
  | s (v : String) : SVal
  | m (v : AIMsg) : SVal
  | other (reprStr : String) (truthy : Bool) : SVal
deriving DecidableEq, Repr

/-- Python truthiness of a scratch value (`not state[field]`): a string is
truthy iff non-empty; a message object is always truthy. -/
def svalTruthy : SVal → Bool
  | .s v => v ≠ ""
  | .m _ => true
  | .other _ b => b

/-- Python `str()` of a scratch value. `str` of an `AIMessage` renders the
pydantic model; its exact text is modeled but no theorem depends on it. -/
def pyStrSVal : SVal → String
  | .s v => v
  | .m m => "content=" ++ String.mk (chSQ :: m.content.data ++ [chSQ]) ++
      " name=" ++ String.mk (chSQ :: m.name.data ++ [chSQ])
  | .other r _ => r

/-- A value held by the `process_decision` slot: a plain string (initial
value, `note_agent_node` output), an `AIMessage` (stored by `agent_node`),
or a dict (the shape `process_router` handles with its `isinstance(...,
dict)` branch). -/
inductive PD : Type where
  | pdStr (v : String) : PD
  | pdMsg (m : AIMsg) : PD
  | pdDict (kvs : List (String × PyVal)) : PD

/-- Python `str()` of a `process_decision` value. -/
def pyStrPD : PD → String
  | .pdStr v => v
  | .pdMsg m => pyStrSVal (.m m)
  | .pdDict kvs => pyRepr (.vobj kvs)

/-- The `State` TypedDict of `src/state.py`, plus the `last_sender` key that
`QualityReview_router` reads with `state.get("last_sender", "")` (absence of
the key is modeled as `""`). -/
structure State : Type where
  messages : List BMsg
  hypothesis : SVal
  process : SVal
  process_decision : PD
  visualization_state : SVal
  searcher_state : SVal
  code_state : SVal
  report_section : SVal
  quality_review : SVal
  needs_revision : Bool
  sender : String
  last_sender : String

/-- Outcome of `agent.invoke(state)` with the textual output already
extracted (`result["output"]` / `str(result)`): a normal return with that
text, an `openai.InternalServerError`, or any other exception, each carrying
`str(e)`. -/
inductive Invoke : Type where
  | ret (output : String) : Invoke
  | raiseISE (detail : String) : Invoke
  | raiseOther (detail : String) : Invoke

/-- Return value of `agent_node`: either a full state dict or the partial
dict `{"messages": [...]}` built by its exception handler. -/
inductive NodeRet : Type where
  | full (st : State) : NodeRet
  | onlyMessages (msgs : List BMsg) : NodeRet

/-- The state when the return is a full state dict. -/
def NodeRet.getFull : NodeRet → Option State
  | .full st => some st
  | .onlyMessages _ => none

/-- The message history carried by either return shape. -/
def NodeRet.retMessages : NodeRet → List BMsg
  | .full st => st.messages
  | .onlyMessages ms => ms

/-- Embedding of `agent_node` (`src/node.py` lines 12-52): append the
output as an `AIMessage`, set `sender`, update the scratch field selected by
the node name, and on an exception return only `[AIMessage("Error: <e>")]`. -/
def agent_node (st : State) (cap : Invoke) (name : String) : NodeRet :=
  match cap with
  | .raiseISE d => .onlyMessages [.ai ⟨"Error: " ++ d, name⟩]
  | .raiseOther d => .onlyMessages [.ai ⟨"Error: " ++ d, name⟩]
  | .ret output =>
    let aiMessage : AIMsg := ⟨output, name⟩
    let s1 : State := { st with messages := st.messages ++ [.ai aiMessage], sender := name }
    .full <|
      if name = "hypothesis_agent" ∧ ¬ svalTruthy st.hypothesis then
        { s1 with hypothesis := .m aiMessage }
      else if name = "process_agent" then
        { s1 with process_decision := .pdMsg aiMessage }
      else if name = "visualization_agent" then
        { s1 with visualization_state := .m aiMessage }
      else if name = "searcher_agent" then
        { s1 with searcher_state := .m aiMessage }
      else if name = "report_agent" then
        { s1 with report_section := .m aiMessage }
      else if name = "quality_review_agent" then
        { s1 with quality_review := .m aiMessage,
                  needs_revision := containsSub (lowerStr output) "revision needed" }
      else s1

/-- Embedding of `create_message` (`src/node.py` lines 86-94): build a
human or agent message from one dict of the parsed reply; `none` marks the
`AttributeError`/validation crash on a non-dict entry or non-string field. -/
def createMessage (v : PyVal) (name : String) : Option BMsg :=
  match v with
  | .vobj kvs =>
    match (pyGet kvs "type").getD (.vstr ""), (pyGet kvs "content").getD (.vstr "") with
    | .vstr t, .vstr c =>
        some (if lowerStr t = "human" then .human c else .ai ⟨c, name⟩)
    | _, _ => none
  | _ => none

/-- Map `create_message` over the entries of the parsed `messages` list,
crashing (`none`) as soon as one entry does. -/
def mapCreateMessage (items : List PyVal) (name : String) : Option (List BMsg) :=
  items.mapM (fun v => createMessage v name)

/-- Embedding of `_create_error_state` (`src/node.py` lines 155-173):
append the diagnostic message to the (possibly already trimmed) working
history, coerce every scratch field with `str()`, keep `needs_revision`, and
set `sender` to `'note_agent'`. The built dict carries no `last_sender`. -/
def createErrorState (w : State) (content : String) (name : String) : State :=
  { messages := w.messages ++ [.ai ⟨content, name⟩]
    hypothesis := .s (pyStrSVal w.hypothesis)
    process := .s (pyStrSVal w.process)
    process_decision := .pdStr (pyStrPD w.process_decision)
    visualization_state := .s (pyStrSVal w.visualization_state)
    searcher_state := .s (pyStrSVal w.searcher_state)
    code_state := .s (pyStrSVal w.code_state)
    report_section := .s (pyStrSVal w.report_section)
    quality_review := .s (pyStrSVal w.quality_review)
    needs_revision := w.needs_revision
    sender := "note_agent"
    last_sender := "" }

/-- The state actually passed to the note agent's capability: when the
history exceeds 6 messages, `note_agent_node` rebinds `state` to a copy
whose `messages` is the middle slice `messages[2:-2]`. -/
def noteWorking (s : State) : State :=
  if s.messages.length > 6 then
    { s with messages := (s.messages.drop 2).take (s.messages.length - 4) }
  else s

/-- One scratch value of the rebuilt state: `str(parsed.get(key,
state.get(key, "")))`. -/
def noteField (kvs : List (String × PyVal)) (k : String) (prior : SVal) : SVal :=
  match pyGet kvs k with
  | some v => .s (pyStr v)
  | none => .s (pyStrSVal prior)

/-- The `updated_state` dict built by `note_agent_node` on a successful
parse (`src/node.py` lines 120-138): splice the new messages (or, when
there are none, the entire original history) between head and tail, take
each scratch field from the parsed reply with the prior value as default,
and set `sender` to `'note_agent'`. -/
def noteUpdatedState (s : State) (kvs : List (String × PyVal)) (newMessages : List BMsg) :
    State :=
  let current := s.messages
  let big := current.length > 6
  let headMsgs := if big then current.take 2 else []
  let tailMsgs := if big then current.drop (current.length - 2) else []
  let msgs := if newMessages.isEmpty then current else newMessages
  { messages := headMsgs ++ msgs ++ tailMsgs
    hypothesis := noteField kvs "hypothesis" s.hypothesis
    process := noteField kvs "process" s.process
    process_decision := .pdStr (match pyGet kvs "process_decision" with
      | some w => pyStr w
      | none => pyStrPD s.process_decision)
    visualization_state := noteField kvs "visualization_state" s.visualization_state
    searcher_state := noteField kvs "searcher_state" s.searcher_state
    code_state := noteField kvs "code_state" s.code_state
    report_section := noteField kvs "report_section" s.report_section
    quality_review := noteField kvs "quality_review" s.quality_review
    needs_revision := (match pyGet kvs "needs_revision" with
      | some w => pyBool w
      | none => s.needs_revision)
    sender := "note_agent"
    last_sender := "" }

/-- Embedding of `note_agent_node` (`src/node.py` lines 96-153). The
result is `none` only when an exception escapes, which the proofs show never
happens for the modeled executions; every failure kind is converted by
`_create_error_state`. -/
def note_agent_node (s : State) (cap : Invoke) (name : String) : Option State :=
  let working := noteWorking s
  match cap with
  | .raiseISE d => some (createErrorState working ("OpenAI Error: " ++ d) name)
  | .raiseOther d => some (createErrorState working ("Unexpected error: " ++ d) name)
  | .ret output =>
    match pyJsonLoads (stripCtl output) with
    | none => some (createErrorState working ("Error parsing output: " ++ output) name)
    | some v =>
      match v with
      | .vobj kvs =>
        match (pyGet kvs "messages").getD (.varr []) with
        | .varr items =>
          match mapCreateMessage items name with
          | none =>
              some (createErrorState working
                "Unexpected error: message entry is not a mapping" name)
          | some newMessages => some (noteUpdatedState s kvs newMessages)
        | .vstr "" =>
            -- iterating an empty string yields no message entries
            some (noteUpdatedState s kvs [])
        | .vobj [] =>
            -- iterating an empty dict yields no message entries
            some (noteUpdatedState s kvs [])
        | _ =>
            -- iterating any other non-list shape crashes in `create_message`
            -- or at the `for` itself; the blanket handler converts it
            some (createErrorState working
              "Unexpected error: messages field is not a list" name)
      | _ =>
        -- `parsed_output.get` on a non-dict raises `AttributeError`, caught
        -- by the blanket `except Exception`
        some (createErrorState working
          "Unexpected error: parsed output is not a mapping" name)

/-- One console event at a blocking `input()` call: an entered line or a
`KeyboardInterrupt`. -/
inductive InEv : Type where
  | line (t : String) : InEv
  | interrupt : InEv

/-- Outcome of a Python call that consumes console events: a returned value,
an escaping exception (by name), or `hang` when the script is still blocked
waiting for input. -/
inductive PyResult (α : Type) : Type where
  | ret (a : α) : PyResult α
  | raise (exn : String) : PyResult α
  | hang : PyResult α

/-- The `while True` loop of `human_choice_node` (`src/node.py` lines
63-68): re-prompt until the line is `"1"` or `"2"`; an interrupt raises. -/
def human_choice_loop : List InEv → PyResult (String × List InEv)
  | [] => .hang
  | .interrupt :: _ => .raise "KeyboardInterrupt"
  | .line t :: rest =>
      if t = "1" ∨ t = "2" then .ret (t, rest) else human_choice_loop rest

/-- Embedding of `human_choice_node` (`src/node.py` lines 54-84). There is
no exception handler: an interrupt during input collection escapes. -/
def human_choice_node (s : State) (evs : List InEv) : PyResult State :=
  match human_choice_loop evs with
  | .hang => .hang
  | .raise e => .raise e
  | .ret (choice, _) =>
    let content := if choice = "1" then "Regenerate hypothesis"
                   else "Continue the research process"
    let s1 : State := { s with messages := s.messages ++ [.human content], sender := "human" }
    .ret (if choice = "1" then { s1 with hypothesis := .s "" }
          else { s1 with process := .s "Continue the research process" })

/-- The yes/no loop of `human_review_node`: the entered line is lowercased
and must be `"yes"` or `"no"`. -/
def review_loop_yn : List InEv → PyResult (String × List InEv)
  | [] => .hang
  | .interrupt :: _ => .raise "KeyboardInterrupt"
  | .line t :: rest =>
      let l := lowerStr t
      if l = "yes" ∨ l = "no" then .ret (l, rest) else review_loop_yn rest

/-- The additional-request loop of `human_review_node`: the entered line is
stripped and must be non-empty. -/
def review_loop_req : List InEv → PyResult (String × List InEv)
  | [] => .hang
  | .interrupt :: _ => .raise "KeyboardInterrupt"
  | .line t :: rest =>
      let r := trimStr t
      if r ≠ "" then .ret (r, rest) else review_loop_req rest

/-- Embedding of `human_review_node` (`src/node.py` lines 175-212): the
whole body sits in a `try` whose handlers return `None` (modeled `ret
none`) on `KeyboardInterrupt` or any other exception. -/
def human_review_node (s : State) (evs : List InEv) : PyResult (Option State) :=
  match review_loop_yn evs with
  | .hang => .hang
  | .raise _ => .ret none
  | .ret (ans, rest) =>
    if ans = "yes" then
      match review_loop_req rest with
      | .hang => .hang
      | .raise _ => .ret none
      | .ret (req, _) =>
          .ret (some { s with messages := s.messages ++ [.human req],
                              needs_revision := true, sender := "human" })
    else
      .ret (some { s with needs_revision := false, sender := "human" })

/-- Text of the `hypothesis` slot as `hypothesis_router` coerces it
(`src/router.py` lines 25-35): message content, the plain string, or `""`
for any unexpected type. -/
def hypothesisText : SVal → String
  | .m m => m.content
  | .s v => v
  | .other _ _ => ""

/-- Embedding of `hypothesis_router` (`src/router.py` lines 14-39). -/
def hypothesis_router (s : State) : String :=
  if trimStr (hypothesisText s.hypothesis) = "" then "Hypothesis" else "Process"

/-- The text branch of `QualityReview_router` after coercing
`process_decision` to a string. -/
def qrTextRoute (t : String) : String :=
  if t = "" ∨ t = "Error" then "NoteTaker"
  else if t = "Visualization" ∨ t = "Search" ∨ t = "Coder" ∨ t = "Report" ∨ t = "QualityReview"
  then t
  else "NoteTaker"

/-- The fixed revision mapping of `QualityReview_router`. -/
def revisionRoute (previous : String) : String :=
  if previous = "Visualization" then "Visualization"
  else if previous = "Search" then "Search"
  else if previous = "Coder" then "Coder"
  else if previous = "Report" then "Report"
  else "NoteTaker"

/-- The revision condition of `QualityReview_router` (`src/router.py` line
56): the literal `REVISION` occurs in the last message's content, or
`needs_revision` is set. -/
def revisionSignal (s : State) : Bool :=
  (match s.messages.getLast? with
    | some m => containsSub m.content "REVISION"
    | none => false) || s.needs_revision

/-- Embedding of `QualityReview_router` (`src/router.py` lines 41-84).
`none` models the `TypeError` raised by the `process_decision in
valid_decisions` membership test when the decision is a non-empty dict
(dicts are unhashable). -/
def QualityReview_router (s : State) : Option String :=
  if revisionSignal s then some (revisionRoute s.last_sender)
  else
    match s.process_decision with
    | .pdStr t => some (qrTextRoute t)
    | .pdMsg m => some (qrTextRoute m.content)
    | .pdDict kvs => if kvs.isEmpty then some "NoteTaker" else none

/-- The final routing table of `process_router` applied to the resolved
decision value: membership in the valid set first (raising `TypeError`,
modeled `none`, on an unhashable value), then the `FINISH` comparison, then
the `Process` fallback. -/
def processFinal (v : PyVal) : Option String :=
  if pyUnhashable v then none
  else
    match v with
    | .vstr t =>
      if t = "Coder" ∨ t = "Search" ∨ t = "Visualization" ∨ t = "Report" then some t
      else if t = "FINISH" then some "END"
      else some "Process"
    | _ => some "Process"

/-- Embedding of `process_router` (`src/router.py` lines 86-136). `none`
models an uncaught exception: the `AttributeError` from `.get` when the
wrapper's content parses as JSON but not as an object, or the `TypeError`
from the membership test on an unhashable resolved value. -/
def process_router (s : State) : Option String :=
  match s.process_decision with
  | .pdStr t => processFinal (.vstr t)
  | .pdDict kvs => processFinal ((pyGet kvs "next").getD (.vstr ""))
  | .pdMsg m =>
    match pyJsonLoads (replaceSQ m.content) with
    | some (.vobj kvs) => processFinal ((pyGet kvs "next").getD (.vstr ""))
    | some _ => none
    | none => processFinal (.vstr m.content)

/-- The freshly created workflow state: empty history, empty scratch
fields, `needs_revision = False`. -/
def emptyState : State :=
  { messages := []
    hypothesis := .s ""
    process := .s ""
    process_decision := .pdStr ""
    visualization_state := .s ""
    searcher_state := .s ""
    code_state := .s ""
    report_section := .s ""
    quality_review := .s ""
    needs_revision := false
    sender := ""
    last_sender := "" }

/-- A state whose history holds one prior message. -/
def oneMsgState : State :=
  { emptyState with messages := [.ai ⟨"m0", "user"⟩], hypothesis := .s "H" }

/-- A state whose history holds seven prior messages, exceeding the
compaction threshold of 6. -/
def st7 : State :=
  { emptyState with
      messages := [.human "m0", .human "m1", .human "m2", .human "m3",
                   .human "m4", .human "m5", .human "m6"],
      hypothesis := .s "H", process := .s "P" }

/-- C1, counterexample: with one prior message in the history, the state
returned by `agent_node` on a capability exception carries only the single
error message, not the prior history plus the error message as the claim
states. -/
theorem C1_counterexample :
    (agent_node oneMsgState (.raiseOther "boom") "process_agent").retMessages
        = [.ai ⟨"Error: boom", "process_agent"⟩]
    ∧ (agent_node oneMsgState (.raiseOther "boom") "process_agent").retMessages
        ≠ oneMsgState.messages ++ [.ai ⟨"Error: boom", "process_agent"⟩] := by
  decide

/-- C1, amended: if the capability invocation inside `agent_node` raises,
the exception never propagates and `agent_node` returns a partial state
holding only a `messages` field with exactly one message `"Error: <detail>"`
authored by the node; the prior history and the scratch fields are not part
of the returned dict. -/
theorem C1_amended (s : State) (name d : String) :
    agent_node s (.raiseOther d) name = .onlyMessages [.ai ⟨"Error: " ++ d, name⟩]
    ∧ agent_node s (.raiseISE d) name = .onlyMessages [.ai ⟨"Error: " ++ d, name⟩] :=
  ⟨rfl, rfl⟩

/-- C1, witness: the amended theorem applied at a concrete state. -/
theorem C1_amended_witness :
    agent_node oneMsgState (.raiseOther "boom") "process_agent"
      = .onlyMessages [.ai ⟨"Error: boom", "process_agent"⟩] :=
  (C1_amended oneMsgState "process_agent" "boom").1

/-- C6: `hypothesis_router` returns `"Process"` iff the coerced, trimmed
hypothesis text is non-empty, and `"Hypothesis"` iff it is empty. -/
theorem C6_hypothesis_router_iff (s : State) :
    (hypothesis_router s = "Process" ↔ trimStr (hypothesisText s.hypothesis) ≠ "")
    ∧ (hypothesis_router s = "Hypothesis" ↔ trimStr (hypothesisText s.hypothesis) = "") := by
  unfold hypothesis_router
  by_cases h : trimStr (hypothesisText s.hypothesis) = "" <;> simp [h]

/-- C6, witness: the theorem applied at concrete states with an empty and a
whitespace-only hypothesis. -/
theorem C6_witness :
    hypothesis_router emptyState = "Hypothesis"
    ∧ hypothesis_router { emptyState with hypothesis := .s "  " } = "Hypothesis"
    ∧ hypothesis_router { emptyState with hypothesis := .m ⟨"X", "hypothesis_agent"⟩ } = "Process" :=
  ⟨(C6_hypothesis_router_iff emptyState).2.mpr (by decide),
   (C6_hypothesis_router_iff _).2.mpr (by decide),
   (C6_hypothesis_router_iff _).1.mpr (by decide)⟩

/-- C9, counterexample: an interruption during input collection at the
binary-choice checkpoint (`human_choice_node`) propagates as an exception
instead of returning a null/absent terminal state as the claim states. -/
theorem C9_counterexample :
    human_choice_node emptyState [.interrupt] = .raise "KeyboardInterrupt" := rfl

/-- C9, amended: an interruption during input collection at the open
revision-request checkpoint (`human_review_node`) returns a null terminal
state with no state commit, whether the interrupt arrives at the yes/no
prompt or at the request prompt; at the binary-choice checkpoint
(`human_choice_node`) the interruption propagates as an exception, so no
state is returned there either. -/
theorem C9_amended (s : State) (rest : List InEv) :
    human_review_node s (.interrupt :: rest) = .ret none
    ∧ human_review_node s (.line "yes" :: .interrupt :: rest) = .ret none
    ∧ human_choice_node s (.interrupt :: rest) = .raise "KeyboardInterrupt" :=
  ⟨rfl, rfl, rfl⟩

/-- C9, witness: the amended theorem applied at a concrete state. -/
theorem C9_amended_witness :
    human_review_node oneMsgState [.interrupt] = .ret none :=
  (C9_amended oneMsgState []).1

/-- C10: for every state, output and node name, the state returned by
`agent_node` on a normal capability return has `code_state` equal to the
input state's `code_state`: no node name writes that scratch field. -/
theorem C10_code_state_frame (s : State) (o n : String) :
    ((agent_node s (.ret o) n).getFull).map State.code_state = some s.code_state := by
  unfold agent_node NodeRet.getFull
  split_ifs <;> rfl

/-- C10, witness: the theorem applied at a concrete state with the
coder-like node name. -/
theorem C10_witness :
    ((agent_node oneMsgState (.ret "print(1)") "code_agent").getFull).map State.code_state
      = some oneMsgState.code_state :=
  C10_code_state_frame oneMsgState "print(1)" "code_agent"

/-- Scratch fields are untouched by the history trimming that
`note_agent_node` performs before invoking its capability. -/
theorem noteWorking_scratch (s : State) :
    (noteWorking s).hypothesis = s.hypothesis
    ∧ (noteWorking s).process = s.process
    ∧ (noteWorking s).process_decision = s.process_decision
    ∧ (noteWorking s).visualization_state = s.visualization_state
    ∧ (noteWorking s).searcher_state = s.searcher_state
    ∧ (noteWorking s).code_state = s.code_state
    ∧ (noteWorking s).report_section = s.report_section
    ∧ (noteWorking s).quality_review = s.quality_review
    ∧ (noteWorking s).needs_revision = s.needs_revision := by
  unfold noteWorking
  split <;> exact ⟨rfl, rfl, rfl, rfl, rfl, rfl, rfl, rfl, rfl⟩

/-- With at most 6 prior messages the note agent's working history is the
full prior history. -/
theorem noteWorking_small (s : State) (h : s.messages.length ≤ 6) :
    (noteWorking s).messages = s.messages := by
  unfold noteWorking
  rw [if_neg (by omega)]

/-- With more than 6 prior messages the note agent's working history is the
middle slice `messages[2:-2]`. -/
theorem noteWorking_big (s : State) (h : s.messages.length > 6) :
    (noteWorking s).messages = (s.messages.drop 2).take (s.messages.length - 4) := by
  unfold noteWorking
  rw [if_pos h]

/-- C2, counterexample: with seven prior messages, the error state built on
a capability failure keeps only the middle slice of the history plus the
diagnostic message; the first two and last two prior messages are gone,
contradicting the claim that the error state's history is the entire prior
history plus one diagnostic. -/
theorem C2_counterexample :
    (note_agent_node st7 (.raiseOther "boom") "note_agent").map State.messages
        = some ([.human "m2", .human "m3", .human "m4",
                 .ai ⟨"Unexpected error: boom", "note_agent"⟩])
    ∧ (note_agent_node st7 (.raiseOther "boom") "note_agent").map State.messages
        ≠ some (st7.messages ++ [.ai ⟨"Unexpected error: boom", "note_agent"⟩]) := by
  decide

/-- C2, amended: on each of the three failure kinds (upstream-service
failure, any other unexpected failure, or a structured-output parse failure
of the returned text), `note_agent_node` never lets the exception escape; it
returns a state whose scratch fields all retain their prior values up to
string coercion, whose `sender` is `'note_agent'`, and whose history is the
working history plus exactly one diagnostic message — where the working
history is the full prior history when it has at most 6 messages, but only
the middle slice `messages[2:-2]` (the first two and last two prior
messages being dropped) when it has more than 6. -/
theorem C2_amended (s : State) (d o n : String)
    (hparse : pyJsonLoads (stripCtl o) = none) :
    ∀ cap : Invoke, (cap = .raiseISE d ∨ cap = .raiseOther d ∨ cap = .ret o) →
    (note_agent_node s cap n).elim False (fun st =>
      (∃ diag : AIMsg, diag.name = n ∧ st.messages = (noteWorking s).messages ++ [.ai diag])
      ∧ (s.messages.length ≤ 6 → (noteWorking s).messages = s.messages)
      ∧ (s.messages.length > 6 →
          (noteWorking s).messages = (s.messages.drop 2).take (s.messages.length - 4))
      ∧ pyStrSVal st.hypothesis = pyStrSVal s.hypothesis
      ∧ pyStrSVal st.process = pyStrSVal s.process
      ∧ pyStrPD st.process_decision = pyStrPD s.process_decision
      ∧ pyStrSVal st.visualization_state = pyStrSVal s.visualization_state
      ∧ pyStrSVal st.searcher_state = pyStrSVal s.searcher_state
      ∧ pyStrSVal st.code_state = pyStrSVal s.code_state
      ∧ pyStrSVal st.report_section = pyStrSVal s.report_section
      ∧ pyStrSVal st.quality_review = pyStrSVal s.quality_review
      ∧ st.needs_revision = s.needs_revision
      ∧ st.sender = "note_agent") := by
  obtain ⟨h1, h2, h3, h4, h5, h6, h7, h8, h9⟩ := noteWorking_scratch s
  rintro cap (rfl | rfl | rfl) <;>
    simp only [note_agent_node, hparse, Option.elim] <;>
    refine ⟨⟨⟨_, n⟩, rfl, rfl⟩, fun h => noteWorking_small s h, fun h => noteWorking_big s h,
      ?_, ?_, ?_, ?_, ?_, ?_, ?_, ?_, ?_, ?_⟩ <;>
    simp [createErrorState, pyStrSVal, pyStrPD, h1, h2, h3, h4, h5, h6, h7, h8, h9]

/-- C2, witness: the amended theorem applied at the seven-message state
with an unparsable capability reply. -/
theorem C2_amended_witness :
    (note_agent_node st7 (Invoke.ret "nope") "note_agent").elim False (fun st =>
      (∃ diag : AIMsg, diag.name = "note_agent"
          ∧ st.messages = (noteWorking st7).messages ++ [.ai diag])
      ∧ (st7.messages.length ≤ 6 → (noteWorking st7).messages = st7.messages)
      ∧ (st7.messages.length > 6 →
          (noteWorking st7).messages = (st7.messages.drop 2).take (st7.messages.length - 4))
      ∧ pyStrSVal st.hypothesis = pyStrSVal st7.hypothesis
      ∧ pyStrSVal st.process = pyStrSVal st7.process
      ∧ pyStrPD st.process_decision = pyStrPD st7.process_decision
      ∧ pyStrSVal st.visualization_state = pyStrSVal st7.visualization_state
      ∧ pyStrSVal st.searcher_state = pyStrSVal st7.searcher_state
      ∧ pyStrSVal st.code_state = pyStrSVal st7.code_state
      ∧ pyStrSVal st.report_section = pyStrSVal st7.report_section
      ∧ pyStrSVal st.quality_review = pyStrSVal st7.quality_review
      ∧ st.needs_revision = st7.needs_revision
      ∧ st.sender = "note_agent") :=
  C2_amended st7 "d" "nope" "note_agent" rfl (Invoke.ret "nope")
    (Or.inr (Or.inr rfl))

/-- C3, counterexample: with seven prior messages and a successfully parsed
reply containing no `messages`, the returned history is head plus the
entire original seven messages plus tail (eleven messages, the head and
tail duplicated), not head plus the reply's messages plus tail as the claim
states. -/
theorem C3_counterexample :
    (note_agent_node st7 (.ret "\x7b\x7d") "note_agent").map State.messages
        = some (st7.messages.take 2 ++ st7.messages ++ st7.messages.drop 5)
    ∧ (note_agent_node st7 (.ret "\x7b\x7d") "note_agent").map State.messages
        ≠ some (st7.messages.take 2 ++ st7.messages.drop 5) := by
  constructor
  · rfl
  · decide

/-- C3, amended: when the note agent's reply parses successfully into an
object whose `messages` entries are well-formed and non-empty, a prior
history longer than 6 messages yields exactly the first two prior messages,
then the reply's messages, then the last two prior messages (head and tail
byte-identical); a history of at most 6 messages is never split (the result
is exactly the reply's messages); every scratch field absent from the reply
retains its previous value up to string coercion; and `sender` becomes
`'note_agent'`. When the reply contains no messages, the code instead
splices the entire original history between head and tail (see the
counterexample), which is the only deviation from the claim. -/
theorem C3_amended (s : State) (o n : String) (kvs : List (String × PyVal))
    (items : List PyVal) (newMsgs : List BMsg)
    (hp : pyJsonLoads (stripCtl o) = some (.vobj kvs))
    (hm : (pyGet kvs "messages").getD (.varr []) = .varr items)
    (hc : mapCreateMessage items n = some newMsgs)
    (hne : newMsgs ≠ []) :
    (note_agent_node s (.ret o) n).elim False (fun st =>
      (s.messages.length > 6 →
        st.messages = s.messages.take 2 ++ newMsgs ++ s.messages.drop (s.messages.length - 2))
      ∧ (s.messages.length ≤ 6 → st.messages = newMsgs)
      ∧ (pyGet kvs "hypothesis" = none → st.hypothesis = .s (pyStrSVal s.hypothesis))
      ∧ (pyGet kvs "process" = none → st.process = .s (pyStrSVal s.process))
      ∧ (pyGet kvs "process_decision" = none →
          st.process_decision = .pdStr (pyStrPD s.process_decision))
      ∧ (pyGet kvs "visualization_state" = none →
          st.visualization_state = .s (pyStrSVal s.visualization_state))
      ∧ (pyGet kvs "searcher_state" = none →
          st.searcher_state = .s (pyStrSVal s.searcher_state))
      ∧ (pyGet kvs "code_state" = none → st.code_state = .s (pyStrSVal s.code_state))
      ∧ (pyGet kvs "report_section" = none →
          st.report_section = .s (pyStrSVal s.report_section))
      ∧ (pyGet kvs "quality_review" = none →
          st.quality_review = .s (pyStrSVal s.quality_review))
      ∧ (pyGet kvs "needs_revision" = none → st.needs_revision = s.needs_revision)
      ∧ st.sender = "note_agent") := by
  have hni : newMsgs.isEmpty = false := by
    cases newMsgs
    · exact absurd rfl hne
    · rfl
  simp only [note_agent_node, hp, hm, hc, Option.elim]
  refine ⟨?_, ?_, ?_, ?_, ?_, ?_, ?_, ?_, ?_, ?_, ?_, rfl⟩ <;> intro h <;>
    simp [noteUpdatedState, noteField, hni, h]
  · rw [if_neg (by omega), if_neg (by omega)]
    simp

/-- C3, witness: the amended theorem applied at the seven-message state
with a reply carrying one human message and no scratch fields. -/
theorem C3_amended_witness :
    (note_agent_node st7
        (Invoke.ret "\x7b\"messages\":[\x7b\"type\":\"human\",\"content\":\"sum\"\x7d]\x7d")
        "note_agent").elim False (fun st =>
      (st7.messages.length > 6 →
        st.messages = st7.messages.take 2 ++ [BMsg.human "sum"]
          ++ st7.messages.drop (st7.messages.length - 2))
      ∧ (st7.messages.length ≤ 6 → st.messages = [BMsg.human "sum"])
      ∧ (pyGet [("messages",
            PyVal.varr [.vobj [("type", .vstr "human"), ("content", .vstr "sum")]])]
            "hypothesis" = none → st.hypothesis = .s (pyStrSVal st7.hypothesis))
      ∧ (pyGet [("messages",
            PyVal.varr [.vobj [("type", .vstr "human"), ("content", .vstr "sum")]])]
            "process" = none → st.process = .s (pyStrSVal st7.process))
      ∧ (pyGet [("messages",
            PyVal.varr [.vobj [("type", .vstr "human"), ("content", .vstr "sum")]])]
            "process_decision" = none →
          st.process_decision = .pdStr (pyStrPD st7.process_decision))
      ∧ (pyGet [("messages",
            PyVal.varr [.vobj [("type", .vstr "human"), ("content", .vstr "sum")]])]
            "visualization_state" = none →
          st.visualization_state = .s (pyStrSVal st7.visualization_state))
      ∧ (pyGet [("messages",
            PyVal.varr [.vobj [("type", .vstr "human"), ("content", .vstr "sum")]])]
            "searcher_state" = none → st.searcher_state = .s (pyStrSVal st7.searcher_state))
      ∧ (pyGet [("messages",
            PyVal.varr [.vobj [("type", .vstr "human"), ("content", .vstr "sum")]])]
            "code_state" = none → st.code_state = .s (pyStrSVal st7.code_state))
      ∧ (pyGet [("messages",
            PyVal.varr [.vobj [("type", .vstr "human"), ("content", .vstr "sum")]])]
            "report_section" = none → st.report_section = .s (pyStrSVal st7.report_section))
      ∧ (pyGet [("messages",
            PyVal.varr [.vobj [("type", .vstr "human"), ("content", .vstr "sum")]])]
            "quality_review" = none → st.quality_review = .s (pyStrSVal st7.quality_review))
      ∧ (pyGet [("messages",
            PyVal.varr [.vobj [("type", .vstr "human"), ("content", .vstr "sum")]])]
            "needs_revision" = none → st.needs_revision = st7.needs_revision)
      ∧ st.sender = "note_agent") :=
  C3_amended st7 "\x7b\"messages\":[\x7b\"type\":\"human\",\"content\":\"sum\"\x7d]\x7d"
    "note_agent"
    [("messages", PyVal.varr [.vobj [("type", .vstr "human"), ("content", .vstr "sum")]])]
    [.vobj [("type", .vstr "human"), ("content", .vstr "sum")]]
    [BMsg.human "sum"] rfl rfl rfl (by decide)

/-- Spec-side rendering of claim C4's fixed revision mapping: the dict
`Visualization→Visualization, Search→Search, Coder→Coder, Report→Report`
looked up with default `NoteTaker`. -/
def qrSpecRevisionMap (prev : String) : String :=
  (([("Visualization", "Visualization"), ("Search", "Search"),
     ("Coder", "Coder"), ("Report", "Report")] : List (String × String)).lookup prev).getD
    "NoteTaker"

/-- Spec-side rendering of claim C4's no-revision branch: return the
decision text verbatim when it is one of the five recognized node names,
`NoteTaker` when it is empty, `"Error"`, or unrecognized. -/
def qrSpecText (t : String) : String :=
  if t = "" ∨ t = "Error" then "NoteTaker"
  else if t ∈ (["Visualization", "Search", "Coder", "Report", "QualityReview"] : List String)
  then t
  else "NoteTaker"

/-- Spec-side rendering of claim C4's whole routing rule over a state whose
decision is text-bearing (a plain string or an agent-message wrapper). -/
def qrSpecDecision (s : State) : String :=
  if revisionSignal s then qrSpecRevisionMap s.last_sender
  else
    qrSpecText (match s.process_decision with
      | .pdStr t => t
      | .pdMsg m => m.content
      | .pdDict _ => "")

/-- The code's text branch agrees with the claim's description of it. -/
theorem qrTextRoute_eq_spec (t : String) : qrTextRoute t = qrSpecText t := by
  unfold qrTextRoute qrSpecText
  by_cases h1 : t = "" ∨ t = "Error"
  · simp [h1]
  · by_cases h2 : t = "Visualization" ∨ t = "Search" ∨ t = "Coder" ∨ t = "Report"
        ∨ t = "QualityReview"
    · rcases h2 with h | h | h | h | h <;> subst h <;> simp
    · rw [if_neg h1, if_neg h1, if_neg h2, if_neg]
      simp only [List.mem_cons, List.mem_singleton, List.not_mem_nil, or_false]
      exact h2

/-- The code's revision mapping agrees with the claim's fixed mapping. -/
theorem revisionRoute_eq_spec (p : String) : revisionRoute p = qrSpecRevisionMap p := by
  unfold revisionRoute qrSpecRevisionMap
  by_cases h1 : p = "Visualization"
  · subst h1; rfl
  · by_cases h2 : p = "Search"
    · subst h2; rfl
    · by_cases h3 : p = "Coder"
      · subst h3; rfl
      · by_cases h4 : p = "Report"
        · subst h4; rfl
        · have e1 : (p == "Visualization") = false := beq_eq_false_iff_ne.mpr h1
          have e2 : (p == "Search") = false := beq_eq_false_iff_ne.mpr h2
          have e3 : (p == "Coder") = false := beq_eq_false_iff_ne.mpr h3
          have e4 : (p == "Report") = false := beq_eq_false_iff_ne.mpr h4
          simp [h1, h2, h3, h4, List.lookup, e1, e2, e3, e4]

/-- C4: for every state whose `process_decision` is text-bearing (a plain
string or an agent-message wrapper), `QualityReview_router` raises nothing
and implements exactly the claim's rule: on a revision signal (the literal
`REVISION` in the last message's content, or `needs_revision`) it applies
the fixed mapping to `last_sender` with default `NoteTaker`; otherwise it
returns the coerced decision text verbatim when it is one of the five
recognized names and `NoteTaker` when it is empty, `"Error"`, or
unrecognized. -/
theorem C4_quality_review_router (s : State)
    (h : (∃ t, s.process_decision = PD.pdStr t) ∨ (∃ m, s.process_decision = PD.pdMsg m)) :
    QualityReview_router s = some (qrSpecDecision s) := by
  by_cases hrev : revisionSignal s
  · simp [QualityReview_router, qrSpecDecision, hrev, revisionRoute_eq_spec]
  · obtain ⟨t, ht⟩ | ⟨m, hm⟩ := h
    · simp [QualityReview_router, qrSpecDecision, hrev, ht, qrTextRoute_eq_spec]
    · simp [QualityReview_router, qrSpecDecision, hrev, hm, qrTextRoute_eq_spec]

/-- C4, witness: the theorem applied at concrete states covering the
revision branch, the unknown-sender default, a valid text decision, and the
empty default. -/
theorem C4_witness :
    QualityReview_router { emptyState with needs_revision := true, last_sender := "Coder" }
        = some "Coder"
    ∧ QualityReview_router { emptyState with needs_revision := true, last_sender := "Unknown" }
        = some "NoteTaker"
    ∧ QualityReview_router { emptyState with process_decision := .pdStr "Report" }
        = some "Report"
    ∧ QualityReview_router emptyState = some "NoteTaker" := by
  have h1 := C4_quality_review_router
    { emptyState with needs_revision := true, last_sender := "Coder" }
    (Or.inl ⟨"", rfl⟩)
  have h2 := C4_quality_review_router
    { emptyState with needs_revision := true, last_sender := "Unknown" }
    (Or.inl ⟨"", rfl⟩)
  have h3 := C4_quality_review_router
    { emptyState with process_decision := .pdStr "Report" }
    (Or.inl ⟨"Report", rfl⟩)
  have h4 := C4_quality_review_router emptyState (Or.inl ⟨"", rfl⟩)
  rw [h1, h2, h3, h4]
  refine ⟨rfl, rfl, rfl, rfl⟩

/-- Spec-side rendering of claim C5's routing table on a resolved decision
text: one of the four worker names verbatim, `FINISH` to `END`, anything
else to `Process`. -/
def processRouteSpec (t : String) : String :=
  if t ∈ (["Coder", "Search", "Visualization", "Report"] : List String) then t
  else if t = "FINISH" then "END"
  else "Process"

/-- The code's final routing step on a resolved string agrees with the
claim's table. -/
theorem processFinal_str (t : String) : processFinal (.vstr t) = some (processRouteSpec t) := by
  have hred : processFinal (.vstr t)
      = (if t = "Coder" ∨ t = "Search" ∨ t = "Visualization" ∨ t = "Report" then some t
         else if t = "FINISH" then some "END" else some "Process") := rfl
  rw [hred]
  unfold processRouteSpec
  by_cases h : t = "Coder" ∨ t = "Search" ∨ t = "Visualization" ∨ t = "Report"
  · have hmem : t ∈ (["Coder", "Search", "Visualization", "Report"] : List String) := by
      simpa using h
    rw [if_pos h, if_pos hmem]
  · have hmem : t ∉ (["Coder", "Search", "Visualization", "Report"] : List String) := by
      simpa using h
    rw [if_neg h, if_neg hmem]
    by_cases hf : t = "FINISH"
    · simp [hf]
    · simp [hf]

/-- C5, counterexample: a state whose decision is an agent message with
content `"123"` — the content parses as JSON but not as an object, so
`.get` on the parsed value raises `AttributeError` and `process_router`
raises instead of returning `"Process"` as the claim states. -/
theorem C5_counterexample :
    process_router { emptyState with process_decision := .pdMsg ⟨"123", "process_agent"⟩ }
        = none
    ∧ process_router { emptyState with process_decision := .pdMsg ⟨"123", "process_agent"⟩ }
        ≠ some "Process" := ⟨rfl, by decide⟩

/-- C5, amended: `process_router` implements the claim's table — a valid
worker name verbatim, `FINISH` to `END`, anything else to `Process` — for a
plain-text decision, for a dict decision through its `next` key (missing
key meaning `Process`), and for an agent-message decision whose
single-quote-normalized content either parses to an object (routed through
its `next` key) or fails to parse (falling back to the raw content). The
one deviation from the claim is that a wrapper content parsing to a
non-object JSON value makes the router raise instead of returning
`Process`. -/
theorem C5_amended (s : State) :
    (∀ t, s.process_decision = PD.pdStr t → process_router s = some (processRouteSpec t))
    ∧ (∀ kvs, s.process_decision = PD.pdDict kvs →
        (∀ t, pyGet kvs "next" = some (.vstr t) →
            process_router s = some (processRouteSpec t))
        ∧ (pyGet kvs "next" = none → process_router s = some "Process"))
    ∧ (∀ m, s.process_decision = PD.pdMsg m →
        (∀ kvs, pyJsonLoads (replaceSQ m.content) = some (.vobj kvs) →
            (∀ t, pyGet kvs "next" = some (.vstr t) →
                process_router s = some (processRouteSpec t))
            ∧ (pyGet kvs "next" = none → process_router s = some "Process"))
        ∧ (pyJsonLoads (replaceSQ m.content) = none →
            process_router s = some (processRouteSpec m.content))) := by
  refine ⟨?_, ?_, ?_⟩
  · intro t ht
    simp [process_router, ht, processFinal_str]
  · intro kvs hk
    constructor
    · intro t hnext
      simp [process_router, hk, hnext, processFinal_str]
    · intro hnone
      simp [process_router, hk, hnone]
      rfl
  · intro m hm
    constructor
    · intro kvs hparse
      constructor
      · intro t hnext
        simp [process_router, hm, hparse, hnext, processFinal_str]
      · intro hnone
        simp [process_router, hm, hparse, hnone]
        rfl
    · intro hfail
      simp [process_router, hm, hfail, processFinal_str]

/-- C5, witness: the amended theorem applied at concrete states — a
wrapped JSON object decision routes to `Coder`, the literal `FINISH` maps
to `END`, and gibberish falls back to `Process`. -/
theorem C5_amended_witness :
    process_router { emptyState with
        process_decision := .pdMsg ⟨"\x7b\"next\": \"Coder\"\x7d", "process_agent"⟩ }
      = some "Coder"
    ∧ process_router { emptyState with process_decision := .pdStr "FINISH" } = some "END"
    ∧ process_router { emptyState with process_decision := .pdStr "gibberish" }
      = some "Process" := by
  have h1 := (((C5_amended { emptyState with
      process_decision := .pdMsg ⟨"\x7b\"next\": \"Coder\"\x7d", "process_agent"⟩ }).2.2
      ⟨"\x7b\"next\": \"Coder\"\x7d", "process_agent"⟩ rfl).1
      [("next", PyVal.vstr "Coder")] rfl).1 "Coder" rfl
  have h2 := (C5_amended { emptyState with process_decision := .pdStr "FINISH" }).1
    "FINISH" rfl
  have h3 := (C5_amended { emptyState with process_decision := .pdStr "gibberish" }).1
    "gibberish" rfl
  rw [h1, h2, h3]
  refine ⟨rfl, rfl, rfl⟩

/-- C7, counterexample: running the hypothesis node on the empty state with
a capability that returns the empty string does write the hypothesis field
(it becomes a truthy message object), yet `hypothesis_router` on the
resulting state returns `"Hypothesis"`, not `"Process"` as the claim
states. -/
theorem C7_counterexample :
    ((agent_node emptyState (.ret "") "hypothesis_agent").getFull.map hypothesis_router)
        = some "Hypothesis"
    ∧ ((agent_node emptyState (.ret "") "hypothesis_agent").getFull.map
        (fun st => svalTruthy st.hypothesis)) = some true := by
  decide

/-- C7, amended: on a normal capability return, `agent_node` under the
hypothesis node's name writes the output into `hypothesis` only when that
field is currently falsy (first-write-wins) and leaves a truthy value
unchanged; starting from a falsy hypothesis, `hypothesis_router` on the
resulting state returns `"Process"` provided the output text is non-blank
(non-empty after trimming). -/
theorem C7_amended (s : State) (o : String) :
    (¬ svalTruthy s.hypothesis →
        (agent_node s (.ret o) "hypothesis_agent").getFull.map State.hypothesis
          = some (.m ⟨o, "hypothesis_agent"⟩))
    ∧ (svalTruthy s.hypothesis →
        (agent_node s (.ret o) "hypothesis_agent").getFull.map State.hypothesis
          = some s.hypothesis)
    ∧ (¬ svalTruthy s.hypothesis → trimStr o ≠ "" →
        (agent_node s (.ret o) "hypothesis_agent").getFull.map hypothesis_router
          = some "Process") := by
  refine ⟨?_, ?_, ?_⟩
  · intro h
    simp [agent_node, NodeRet.getFull, h]
  · intro h
    simp [agent_node, NodeRet.getFull, h]
  · intro h ho
    simp [agent_node, NodeRet.getFull, h, hypothesis_router, hypothesisText, ho]

/-- C7, witness: the amended theorem applied at the empty state with a
non-blank output. -/
theorem C7_amended_witness :
    (agent_node emptyState (.ret "X") "hypothesis_agent").getFull.map hypothesis_router
      = some "Process" :=
  (C7_amended emptyState "X").2.2 (by decide) (by decide)

/-- C8, counterexample: `note_agent_node` — a node that is neither the
quality-review node nor a human checkpoint — turns `needs_revision` from
false to true when its parsed reply carries `needs_revision: true`,
contradicting the claim that no other node ever sets the flag. -/
theorem C8_counterexample :
    oneMsgState.needs_revision = false
    ∧ (note_agent_node oneMsgState (.ret "\x7b\"needs_revision\": true\x7d")
        "note_agent").map State.needs_revision = some true
    ∧ (note_agent_node oneMsgState (.ret "\x7b\"needs_revision\": true\x7d")
        "note_agent").map State.sender = some "note_agent" := by
  refine ⟨rfl, rfl, rfl⟩

/-- C8, amended: `agent_node` under the quality-review node's name sets
`needs_revision` to true iff the output text contains `"revision needed"`
case-insensitively; under every other node name it leaves `needs_revision`
unchanged, and `human_choice_node` never touches it. Besides the
quality-review node, only the human revision checkpoint and the note
compactor (whose structured reply may carry a `needs_revision` value, see
the counterexample) can set the flag. -/
theorem C8_amended (s : State) (o n : String) :
    ((agent_node s (.ret o) "quality_review_agent").getFull.map State.needs_revision
        = some (containsSub (lowerStr o) "revision needed"))
    ∧ (n ≠ "quality_review_agent" →
        (agent_node s (.ret o) n).getFull.map State.needs_revision = some s.needs_revision)
    ∧ (∀ evs st', human_choice_node s evs = .ret st' →
        st'.needs_revision = s.needs_revision) := by
  refine ⟨?_, ?_, ?_⟩
  · simp [agent_node, NodeRet.getFull]
  · intro h
    unfold agent_node NodeRet.getFull
    split_ifs <;> rfl
  · intro evs st' hret
    unfold human_choice_node at hret
    cases hh : human_choice_loop evs with
    | hang => rw [hh] at hret; cases hret
    | raise e => rw [hh] at hret; cases hret
    | ret p =>
      rcases p with ⟨choice, rest⟩
      rw [hh] at hret
      by_cases hch : choice = "1"
      · subst hch
        cases hret
        rfl
      · simp only [hch] at hret
        simp only [if_false, if_neg hch] at hret
        cases hret
        rfl

/-- C8, witness: the amended theorem applied at concrete inputs — the
marker is detected case-insensitively by the quality-review node, and a
different node leaves a false flag false. -/
theorem C8_amended_witness :
    ((agent_node oneMsgState (.ret "REVISION NEEDED: redo the plot")
        "quality_review_agent").getFull.map State.needs_revision = some true)
    ∧ ((agent_node oneMsgState (.ret "all good") "report_agent").getFull.map
        State.needs_revision = some false) := by
  have h1 := (C8_amended oneMsgState "REVISION NEEDED: redo the plot" "x").1
  have h2 := (C8_amended oneMsgState "all good" "report_agent").2.1 (by decide)
  rw [h1, h2]
  exact ⟨rfl, rfl⟩

end MultiAgent
